import Mathlib

/-
Verification of the embedding evaluation engine of the hackathon_evaluator
repository (src/evaluator.py, class EvaluationEngine).

Embedding vectors are modelled as lists of real numbers; a submission is
modelled as a finite string-keyed mapping (association list) whose values are
either nested mappings or embedding matrices (lists of rows).  Python float
arithmetic is modelled by exact real arithmetic.
-/

namespace HackathonEvaluator

/-- Dot product of two vectors (componentwise product, summed).  Vectors of a
single test always have equal length once `np.array` has succeeded; on unequal
lengths the extra components are ignored. -/
def dot (u v : List ℝ) : ℝ := (List.zipWith (fun a b => a * b) u v).sum

/-- Euclidean norm of a vector, as used by the row normalisation inside
`sklearn.metrics.pairwise.cosine_similarity`. -/
noncomputable def l2norm (u : List ℝ) : ℝ := Real.sqrt (dot u u)

/-- Cosine similarity of one pair of rows, as computed by
`sklearn.metrics.pairwise.cosine_similarity` (src/evaluator.py line 11):
each row is L2-normalised, a zero-norm row is left unchanged by the
normalisation, so any pair involving a zero-magnitude vector gets
similarity 0 and no division by zero ever occurs. -/
noncomputable def cosine_similarity (u v : List ℝ) : ℝ :=
  if l2norm u = 0 ∨ l2norm v = 0 then 0
  else dot u v / (l2norm u * l2norm v)

/-- The three configurable thresholds (src/evaluator.py lines 39-43). -/
structure Thresholds where
  high_similarity : ℝ
  low_similarity : ℝ
  single_option_diff_min : ℝ

/-- Default thresholds of the engine (src/evaluator.py lines 39-43). -/
noncomputable def default_thresholds : Thresholds :=
  { high_similarity := 0.85, low_similarity := 0.30, single_option_diff_min := 0.75 }

/-- The upper-triangle (strictly above the diagonal) entries of the pairwise
cosine-similarity matrix of a list of rows, i.e. the similarities of all
unordered pairs, as extracted by
`similarities[np.triu_indices_from(similarities, k=1)]`. -/
noncomputable def pairwise_sims : List (List ℝ) → List ℝ
  | [] => []
  | u :: rest => rest.map (fun v => cosine_similarity u v) ++ pairwise_sims rest

/-- Test 1 (src/evaluator.py lines 159-179, `_evaluate_price_extremes`):
most and least expensive configurations should be dissimilar. -/
noncomputable def evaluate_price_extremes (th : Thresholds) (e : List (List ℝ)) : ℝ :=
  match e with
  | [u, v] =>
    let similarity := cosine_similarity u v
    if similarity < th.low_similarity then 1
    else if th.high_similarity < similarity then 0
    else
      max 0 (min 1 ((th.high_similarity - similarity) /
        (th.high_similarity - th.low_similarity)))
  | _ => 0

/-- Test 2 (src/evaluator.py lines 181-214, `_evaluate_single_option_diff`). -/
noncomputable def evaluate_single_option_diff (th : Thresholds) (e : List (List ℝ)) : ℝ :=
  match e with
  | [a, b, c] =>
    let sim_a_to_similar := cosine_similarity a b
    let sim_a_to_different := cosine_similarity a c
    let similar_score :=
      if th.single_option_diff_min ≤ sim_a_to_similar then 1
      else sim_a_to_similar / th.single_option_diff_min
    let different_score :=
      if sim_a_to_different < th.low_similarity then 1
      else (th.high_similarity - sim_a_to_different) /
        (th.high_similarity - th.low_similarity)
    let ranking_bonus := if sim_a_to_different < sim_a_to_similar then 1 else 0.5
    similar_score * 0.4 + different_score * 0.4 + ranking_bonus * 0.2
  | _ => 0

/-- Test 3 (src/evaluator.py lines 216-237, `_evaluate_model_year_sensitivity`):
fixed ideal band (0.50, 0.75); the thresholds argument is not read. -/
noncomputable def evaluate_model_year_sensitivity (th : Thresholds) (e : List (List ℝ)) : ℝ :=
  match e with
  | [u, v] =>
    let similarity := cosine_similarity u v
    if 0.50 ≤ similarity ∧ similarity ≤ 0.75 then 1
    else if similarity < 0.50 then similarity / 0.50
    else max 0 (1 - (similarity - 0.75) / (1 - 0.75))
  | _ => 0

/-- Test 4 (src/evaluator.py lines 239-255, `_evaluate_color_sensitivity`). -/
noncomputable def evaluate_color_sensitivity (th : Thresholds) (e : List (List ℝ)) : ℝ :=
  match e with
  | [u, v] =>
    let similarity := cosine_similarity u v
    if th.high_similarity ≤ similarity then 1
    else if similarity < 0.70 then 0
    else (similarity - 0.70) / (th.high_similarity - 0.70)
  | _ => 0

/-- Test 5 (src/evaluator.py lines 257-280, `_evaluate_trim_similarity`):
fixed ideal band (0.55, 0.80) over the mean pairwise similarity; the
thresholds argument is not read. -/
noncomputable def evaluate_trim_similarity (th : Thresholds) (e : List (List ℝ)) : ℝ :=
  if e.length < 2 then 0
  else
    let sims := pairwise_sims e
    let avg_similarity := sims.sum / sims.length
    if 0.55 ≤ avg_similarity ∧ avg_similarity ≤ 0.80 then 1
    else if avg_similarity < 0.55 then avg_similarity / 0.55
    else max 0 (1 - (avg_similarity - 0.80) / (1 - 0.80))

/-- Test 6 (src/evaluator.py lines 282-301, `_evaluate_vehicle_line_separation`). -/
noncomputable def evaluate_vehicle_line_separation (th : Thresholds) (e : List (List ℝ)) : ℝ :=
  if e.length < 2 then 0
  else
    let sims := pairwise_sims e
    let avg_similarity := sims.sum / sims.length
    if avg_similarity < th.low_similarity then 1
    else if 0.65 < avg_similarity then 0
    else (0.65 - avg_similarity) / (0.65 - th.low_similarity)

/-- Test 7 (src/evaluator.py lines 303-340, `_evaluate_derivative_clustering`):
first three rows form one derivative, the fourth a different one; the
thresholds argument is not read. -/
noncomputable def evaluate_derivative_clustering (th : Thresholds) (e : List (List ℝ)) : ℝ :=
  match e with
  | [a, b, c, d] =>
    let avg_same :=
      (cosine_similarity a b + cosine_similarity a c + cosine_similarity b c) / 3
    let avg_different :=
      (cosine_similarity a d + cosine_similarity b d + cosine_similarity c d) / 3
    let clustering_score := if avg_different < avg_same then 1 else 0.5
    let same_score := if 0.70 ≤ avg_same then 1 else avg_same / 0.70
    let different_score :=
      if avg_different < 0.50 then 1 else max 0 ((0.80 - avg_different) / 0.30)
    clustering_score * 0.4 + same_score * 0.3 + different_score * 0.3
  | _ => 0

/-- Test 8 (src/evaluator.py lines 342-375, `_evaluate_feature_correlation`):
fixed ideal band (0.30, 0.65) with centre 0.475; the thresholds argument is
not read. -/
noncomputable def evaluate_feature_correlation (th : Thresholds) (e : List (List ℝ)) : ℝ :=
  match e with
  | [a, b, c] =>
    let sim_low_mid := cosine_similarity a b
    let sim_mid_high := cosine_similarity b c
    let sim_low_high := cosine_similarity a c
    let monotonic :=
      if sim_low_high < sim_low_mid ∧ sim_low_high < sim_mid_high then 1 else 0.5
    let avg_sim := (sim_low_mid + sim_mid_high + sim_low_high) / 3
    let range_score :=
      if 0.30 ≤ avg_sim ∧ avg_sim ≤ 0.65 then 1
      else max 0 (1 - |avg_sim - 0.475| / 0.5)
    monotonic * 0.5 + range_score * 0.5
  | _ => 0

/-- Test 9 (src/evaluator.py lines 377-401, `_evaluate_transitivity`):
uses the first three rows; the thresholds argument is not read.  In the final
branch Python produces `-inf` when the denominator is exactly zero (only
reachable with `sim_ac < 0`), which `max(0.0, ...)` maps to `0.0`; real
division by zero yields 0 here, so the returned value agrees. -/
noncomputable def evaluate_transitivity (th : Thresholds) (e : List (List ℝ)) : ℝ :=
  match e with
  | a :: b :: c :: _ =>
    let sim_ab := cosine_similarity a b
    let sim_bc := cosine_similarity b c
    let sim_ac := cosine_similarity a c
    let min_pairwise := min sim_ab sim_bc
    if min_pairwise * 0.8 ≤ sim_ac then 1
    else if min_pairwise * 0.6 ≤ sim_ac then 0.7
    else max 0 (sim_ac / (min_pairwise * 0.6))
  | _ => 0

/-- Test 10 (src/evaluator.py lines 403-423, `_evaluate_cross_year`):
fixed ideal band (0.60, 0.85); the thresholds argument is not read. -/
noncomputable def evaluate_cross_year (th : Thresholds) (e : List (List ℝ)) : ℝ :=
  match e with
  | [u, v] =>
    let similarity := cosine_similarity u v
    if 0.60 ≤ similarity ∧ similarity ≤ 0.85 then 1
    else if similarity < 0.60 then similarity / 0.60
    else max 0 (1 - (similarity - 0.85) / (1 - 0.85))
  | _ => 0

/-- A value inside a submitted results mapping: either a nested string-keyed
mapping (a Python dict, keys unique) or an embeddings matrix (a Python list of
numeric rows).  These are the only value shapes the claims quantify over. -/
inductive SubVal where
  | dict : List (String × SubVal) → SubVal
  | emb : List (List ℝ) → SubVal

/-- Key lookup in a string-keyed mapping (Python dict indexing / `.get`). -/
def lookupKey : List (String × SubVal) → String → Option SubVal
  | [], _ => none
  | p :: rest, k => if p.1 = k then some p.2 else lookupKey rest k

/-- Key lookup in a score mapping. -/
def lookup_score : List (String × ℝ) → String → Option ℝ
  | [], _ => none
  | p :: rest, k => if p.1 = k then some p.2 else lookup_score rest k

/-- Python truthiness of a submission value (`if embeddings:` on line 149):
a list or dict is truthy exactly when non-empty. -/
def truthy : SubVal → Bool
  | SubVal.dict entries => !entries.isEmpty
  | SubVal.emb rows => !rows.isEmpty

/-- Conditions under which `np.array(embeddings)` followed by the evaluator
raises inside the per-test `try` (src/evaluator.py lines 150-155): ragged rows
make `np.array` raise, and zero-length rows make the sklearn input validation
inside `cosine_similarity` raise (0 features). -/
def has_invalid_rows : List (List ℝ) → Bool
  | [] => false
  | r :: rs => r.isEmpty || rs.any (fun s => s.length != r.length)

/-- The fixed test identifiers, in the iteration order of the
`test_evaluators` dict literal (src/evaluator.py lines 131-142). -/
def test_ids : List String :=
  ["test_1", "test_2", "test_3", "test_4", "test_5",
   "test_6", "test_7", "test_8", "test_9", "test_10"]

/-- Dispatch from a test identifier to its evaluator, mirroring the
`test_evaluators` dict (src/evaluator.py lines 131-142). -/
noncomputable def evaluator_for (th : Thresholds) (tid : String) (rows : List (List ℝ)) : ℝ :=
  if tid = "test_1" then evaluate_price_extremes th rows
  else if tid = "test_2" then evaluate_single_option_diff th rows
  else if tid = "test_3" then evaluate_model_year_sensitivity th rows
  else if tid = "test_4" then evaluate_color_sensitivity th rows
  else if tid = "test_5" then evaluate_trim_similarity th rows
  else if tid = "test_6" then evaluate_vehicle_line_separation th rows
  else if tid = "test_7" then evaluate_derivative_clustering th rows
  else if tid = "test_8" then evaluate_feature_correlation th rows
  else if tid = "test_9" then evaluate_transitivity th rows
  else if tid = "test_10" then evaluate_cross_year th rows
  else 0

/-- Score of one attempted test entry (src/evaluator.py lines 146-155): the
`embeddings` key is read with default `[]`; the `try` around
`np.array`/evaluator maps any raise to 0.0.  A truthy non-list `embeddings`
value (a non-empty dict) also makes the evaluator raise, hence 0.0. -/
noncomputable def evaluate_test_entry (th : Thresholds) (tid : String)
    (entries : List (String × SubVal)) : ℝ :=
  match (lookupKey entries "embeddings").getD (SubVal.emb []) with
  | SubVal.emb rows => if has_invalid_rows rows then 0 else evaluator_for th tid rows
  | SubVal.dict _ => 0

/-- Evaluation loop over the test identifiers (src/evaluator.py lines 126-157,
`_evaluate_all_tests`).  A test entry that is itself not a dict makes
`test_result.get` raise an AttributeError outside the per-test `try`; that
exception propagates to the top-level handler of `evaluate_submission`,
modelled by the `none` result. -/
noncomputable def evaluate_all_tests (th : Thresholds)
    (processed : List (String × SubVal)) : List String → Option (List (String × ℝ))
  | [] => some []
  | tid :: rest =>
    match lookupKey processed tid with
    | none => evaluate_all_tests th processed rest
    | some (SubVal.emb _) => none
    | some (SubVal.dict entries) =>
      if truthy ((lookupKey entries "embeddings").getD (SubVal.emb [])) then
        match evaluate_all_tests th processed rest with
        | none => none
        | some scores => some ((tid, evaluate_test_entry th tid entries) :: scores)
      else evaluate_all_tests th processed rest

/-- Shape validation (src/evaluator.py lines 107-124,
`_validate_submission_format`): the two required keys are checked for
presence in order, then `processed_data` is checked to be a dict.  The type of
`metadata` is never checked. -/
def validate_submission_format (results : List (String × SubVal)) : Option String :=
  if (lookupKey results "processed_data").isNone then
    some "Missing required field: processed_data"
  else if (lookupKey results "metadata").isNone then
    some "Missing required field: metadata"
  else
    match lookupKey results "processed_data" with
    | some (SubVal.dict _) => none
    | _ => some "processed_data must be a dictionary"

/-- The default per-test weights, already resolved through the
`test_weight_mapping` dict of `evaluate_submission`
(src/evaluator.py lines 27-38 and 74-85). -/
noncomputable def test_weight_mapping : List (String × ℝ) :=
  [("test_1", 0.15), ("test_2", 0.15), ("test_3", 0.10), ("test_4", 0.10),
   ("test_5", 0.10), ("test_6", 0.10), ("test_7", 0.10), ("test_8", 0.10),
   ("test_9", 0.05), ("test_10", 0.05)]

/-- Result of `evaluate_submission`: the `error` key is only present in the
invalid case and `details.test_scores` only in the valid case. -/
structure EvalResult where
  valid : Bool
  error : Option String
  score : ℝ
  test_scores : Option (List (String × ℝ))

/-- Rounding to 3 decimal places, modelling `round(x, 3)`.  Python rounds
ties of the underlying binary float to even; ties do not arise in any claim,
so nearest-integer rounding is used. -/
noncomputable def round3 (x : ℝ) : ℝ := (round (x * 1000) : ℤ) / 1000

/-- Top-level evaluation (src/evaluator.py lines 45-105,
`evaluate_submission`, for the default engine configuration): validate the
shape, evaluate all tests, combine with the ten fixed weights (a test with no
recorded score contributes 0.0 via `test_scores.get(test_id, 0.0)`), round.
The top-level exception handler returns an invalid result whose message
Python builds from the exception text. -/
noncomputable def evaluate_submission (th : Thresholds)
    (results : List (String × SubVal)) : EvalResult :=
  match validate_submission_format results with
  | some err => { valid := false, error := some err, score := 0, test_scores := none }
  | none =>
    let processed :=
      match lookupKey results "processed_data" with
      | some (SubVal.dict entries) => entries
      | _ => []
    match evaluate_all_tests th processed test_ids with
    | none =>
      { valid := false, error := some "Evaluation error", score := 0, test_scores := none }
    | some scores =>
      let final_score :=
        (test_weight_mapping.map (fun p => (lookup_score scores p.1).getD 0 * p.2)).sum
      { valid := true, error := none, score := round3 final_score,
        test_scores := some (scores.map (fun p => (p.1, round3 p.2))) }

@[simp] lemma dot_nil_left (v : List ℝ) : dot [] v = 0 := rfl

@[simp] lemma dot_nil_right (u : List ℝ) : dot u [] = 0 := by cases u <;> rfl

@[simp] lemma dot_cons (a b : ℝ) (u v : List ℝ) :
    dot (a :: u) (b :: v) = a * b + dot u v := by
  simp [dot]

lemma dot_self_nonneg (u : List ℝ) : 0 ≤ dot u u := by
  induction u with
  | nil => simp
  | cons a u ih => simp only [dot_cons]; nlinarith [sq_nonneg a]

/-- Cauchy-Schwarz for the list dot product. -/
lemma dot_sq_le (u v : List ℝ) : (dot u v) ^ 2 ≤ dot u u * dot v v := by
  induction u generalizing v with
  | nil => simp
  | cons a u ih =>
    cases v with
    | nil => simp [dot_self_nonneg, mul_nonneg, dot_self_nonneg u]
    | cons b v =>
      simp only [dot_cons]
      have h := ih v
      have hU := dot_self_nonneg u
      have hV := dot_self_nonneg v
      rcases eq_or_lt_of_le hV with hV0 | hVpos
      · have hD : dot u v = 0 := by nlinarith [sq_nonneg (dot u v)]
        rw [hD, ← hV0]
        ring_nf
        nlinarith [mul_nonneg hU (sq_nonneg b)]
      · nlinarith [sq_nonneg (a * dot v v - b * dot u v),
          mul_nonneg (sq_nonneg b)
            (by nlinarith : (0:ℝ) ≤ dot u u * dot v v - (dot u v) ^ 2),
          mul_nonneg (le_of_lt hVpos)
            (by nlinarith : (0:ℝ) ≤ dot u u * dot v v - (dot u v) ^ 2)]

lemma l2norm_nonneg (u : List ℝ) : 0 ≤ l2norm u := Real.sqrt_nonneg _

lemma l2norm_sq (u : List ℝ) : l2norm u * l2norm u = dot u u :=
  Real.mul_self_sqrt (dot_self_nonneg u)

lemma abs_dot_le (u v : List ℝ) : |dot u v| ≤ l2norm u * l2norm v := by
  have hsq : (dot u v) ^ 2 ≤ (l2norm u * l2norm v) ^ 2 := by
    have he : (l2norm u * l2norm v) ^ 2 = dot u u * dot v v := by
      calc (l2norm u * l2norm v) ^ 2
          = (l2norm u * l2norm u) * (l2norm v * l2norm v) := by ring
      _ = dot u u * dot v v := by rw [l2norm_sq, l2norm_sq]
    rw [he]; exact dot_sq_le u v
  have h2 : 0 ≤ l2norm u * l2norm v := mul_nonneg (l2norm_nonneg u) (l2norm_nonneg v)
  rcases abs_cases (dot u v) with ⟨heq, hsign⟩ | ⟨heq, hsign⟩ <;> rw [heq] <;>
    nlinarith [hsq, h2]

lemma cosine_similarity_le_one (u v : List ℝ) : cosine_similarity u v ≤ 1 := by
  rw [cosine_similarity]
  split_ifs with h
  · norm_num
  · push_neg at h
    have hu : 0 < l2norm u := lt_of_le_of_ne (l2norm_nonneg u) (Ne.symm h.1)
    have hv : 0 < l2norm v := lt_of_le_of_ne (l2norm_nonneg v) (Ne.symm h.2)
    rw [div_le_one (mul_pos hu hv)]
    calc dot u v ≤ |dot u v| := le_abs_self _
    _ ≤ l2norm u * l2norm v := abs_dot_le u v

lemma neg_one_le_cosine_similarity (u v : List ℝ) : -1 ≤ cosine_similarity u v := by
  rw [cosine_similarity]
  split_ifs with h
  · norm_num
  · push_neg at h
    have hu : 0 < l2norm u := lt_of_le_of_ne (l2norm_nonneg u) (Ne.symm h.1)
    have hv : 0 < l2norm v := lt_of_le_of_ne (l2norm_nonneg v) (Ne.symm h.2)
    rw [le_div_iff (mul_pos hu hv)]
    have := abs_dot_le u v
    have := neg_abs_le (dot u v)
    linarith

/-- Helper to evaluate `l2norm` at concrete inputs. -/
lemma l2norm_eq_of_sq (u : List ℝ) (c : ℝ) (hc : 0 ≤ c) (h : dot u u = c * c) :
    l2norm u = c := by
  rw [l2norm, h, Real.sqrt_mul_self hc]

/-- Helper to evaluate `cosine_similarity` at concrete inputs with nonzero
norms. -/
lemma cosine_similarity_eq (u v : List ℝ) (nu nv : ℝ)
    (hu : l2norm u = nu) (hv : l2norm v = nv) (h1 : nu ≠ 0) (h2 : nv ≠ 0) :
    cosine_similarity u v = dot u v / (nu * nv) := by
  have hg : ¬(l2norm u = 0 ∨ l2norm v = 0) := by
    push_neg
    exact ⟨hu ▸ h1, hv ▸ h2⟩
  rw [cosine_similarity, if_neg hg, hu, hv]

lemma dot_replicate_zero (n : ℕ) (v : List ℝ) : dot (List.replicate n 0) v = 0 := by
  induction n generalizing v with
  | zero => simp [List.replicate]
  | succ k ih =>
    cases v with
    | nil => simp
    | cons b bs => simp [List.replicate_succ, ih]

lemma l2norm_replicate_zero (n : ℕ) : l2norm (List.replicate n 0) = 0 := by
  rw [l2norm, dot_replicate_zero, Real.sqrt_zero]

lemma list_sum_le (l : List ℝ) (b : ℝ) (h : ∀ x ∈ l, x ≤ b) :
    l.sum ≤ l.length * b := by
  induction l with
  | nil => simp
  | cons a l ih =>
    have h1 : a ≤ b := h a (List.mem_cons_self a l)
    have h2 : l.sum ≤ l.length * b := ih (fun x hx => h x (List.mem_cons_of_mem a hx))
    simp only [List.sum_cons, List.length_cons]
    push_cast
    linarith

lemma le_list_sum (l : List ℝ) (b : ℝ) (h : ∀ x ∈ l, b ≤ x) :
    l.length * b ≤ l.sum := by
  induction l with
  | nil => simp
  | cons a l ih =>
    have h1 : b ≤ a := h a (List.mem_cons_self a l)
    have h2 : l.length * b ≤ l.sum := ih (fun x hx => h x (List.mem_cons_of_mem a hx))
    simp only [List.sum_cons, List.length_cons]
    push_cast
    linarith

lemma list_mean_le (l : List ℝ) (b : ℝ) (hl : l ≠ []) (h : ∀ x ∈ l, x ≤ b) :
    l.sum / l.length ≤ b := by
  have hn : 0 < (l.length : ℝ) := by
    exact_mod_cast List.length_pos.mpr hl
  rw [div_le_iff hn]
  calc l.sum ≤ l.length * b := list_sum_le l b h
  _ = b * l.length := mul_comm _ _

lemma le_list_mean (l : List ℝ) (b : ℝ) (hl : l ≠ []) (h : ∀ x ∈ l, b ≤ x) :
    b ≤ l.sum / l.length := by
  have hn : 0 < (l.length : ℝ) := by
    exact_mod_cast List.length_pos.mpr hl
  rw [le_div_iff hn]
  calc b * l.length = l.length * b := mul_comm _ _
  _ ≤ l.sum := le_list_sum l b h

lemma pairwise_sims_mem (e : List (List ℝ)) (x : ℝ) (hx : x ∈ pairwise_sims e) :
    ∃ u ∈ e, ∃ v ∈ e, x = cosine_similarity u v := by
  induction e with
  | nil => simp [pairwise_sims] at hx
  | cons u rest ih =>
    simp only [pairwise_sims, List.mem_append, List.mem_map] at hx
    rcases hx with ⟨v, hv, rfl⟩ | hx
    · exact ⟨u, List.mem_cons_self _ _, v, List.mem_cons_of_mem _ hv, rfl⟩
    · obtain ⟨a, ha, b, hb, hab⟩ := ih hx
      exact ⟨a, List.mem_cons_of_mem _ ha, b, List.mem_cons_of_mem _ hb, hab⟩

lemma pairwise_sims_ne_nil (u v : List ℝ) (rest : List (List ℝ)) :
    pairwise_sims (u :: v :: rest) ≠ [] := by
  intro hc
  simp [pairwise_sims] at hc

lemma l2norm_10 : l2norm [(1:ℝ), 0] = 1 :=
  l2norm_eq_of_sq _ 1 (by norm_num) (by norm_num)

lemma l2norm_m10 : l2norm [(-1:ℝ), 0] = 1 :=
  l2norm_eq_of_sq _ 1 (by norm_num) (by norm_num)

lemma l2norm_01 : l2norm [(0:ℝ), 1] = 1 :=
  l2norm_eq_of_sq _ 1 (by norm_num) (by norm_num)

lemma l2norm_00 : l2norm [(0:ℝ), 0] = 0 :=
  l2norm_eq_of_sq _ 0 le_rfl (by norm_num)

lemma cs_10_10 : cosine_similarity [(1:ℝ), 0] [1, 0] = 1 := by
  rw [cosine_similarity_eq _ _ 1 1 l2norm_10 l2norm_10 one_ne_zero one_ne_zero]
  norm_num

lemma cs_10_m10 : cosine_similarity [(1:ℝ), 0] [-1, 0] = -1 := by
  rw [cosine_similarity_eq _ _ 1 1 l2norm_10 l2norm_m10 one_ne_zero one_ne_zero]
  norm_num

lemma cs_m10_m10 : cosine_similarity [(-1:ℝ), 0] [-1, 0] = 1 := by
  rw [cosine_similarity_eq _ _ 1 1 l2norm_m10 l2norm_m10 one_ne_zero one_ne_zero]
  norm_num

lemma cs_10_01 : cosine_similarity [(1:ℝ), 0] [0, 1] = 0 := by
  rw [cosine_similarity_eq _ _ 1 1 l2norm_10 l2norm_01 one_ne_zero one_ne_zero]
  norm_num

lemma cs_01_10 : cosine_similarity [(0:ℝ), 1] [1, 0] = 0 := by
  rw [cosine_similarity_eq _ _ 1 1 l2norm_01 l2norm_10 one_ne_zero one_ne_zero]
  norm_num

lemma cs_01_01 : cosine_similarity [(0:ℝ), 1] [0, 1] = 1 := by
  rw [cosine_similarity_eq _ _ 1 1 l2norm_01 l2norm_01 one_ne_zero one_ne_zero]
  norm_num

lemma cs_01_m10 : cosine_similarity [(0:ℝ), 1] [-1, 0] = 0 := by
  rw [cosine_similarity_eq _ _ 1 1 l2norm_01 l2norm_m10 one_ne_zero one_ne_zero]
  norm_num

/-- A vector of norm 10 whose similarity with the first axis is exactly 0.30. -/
lemma l2norm_sqrt91 : l2norm [(3:ℝ), Real.sqrt 91] = 10 := by
  apply l2norm_eq_of_sq _ 10 (by norm_num)
  have h : Real.sqrt 91 * Real.sqrt 91 = 91 := Real.mul_self_sqrt (by norm_num)
  simp only [dot_cons, dot_nil_left, h]
  norm_num

lemma cs_sqrt91 : cosine_similarity [(1:ℝ), 0] [3, Real.sqrt 91] = 0.30 := by
  rw [cosine_similarity_eq _ _ 1 10 l2norm_10 l2norm_sqrt91 one_ne_zero (by norm_num)]
  simp only [dot_cons, dot_nil_left]
  norm_num

/-- A vector of norm 20 whose similarity with the first axis is exactly 0.85. -/
lemma l2norm_sqrt111 : l2norm [(17:ℝ), Real.sqrt 111] = 20 := by
  apply l2norm_eq_of_sq _ 20 (by norm_num)
  have h : Real.sqrt 111 * Real.sqrt 111 = 111 := Real.mul_self_sqrt (by norm_num)
  simp only [dot_cons, dot_nil_left, h]
  norm_num

lemma cs_sqrt111 : cosine_similarity [(1:ℝ), 0] [17, Real.sqrt 111] = 0.85 := by
  rw [cosine_similarity_eq _ _ 1 20 l2norm_10 l2norm_sqrt111 one_ne_zero (by norm_num)]
  simp only [dot_cons, dot_nil_left]
  norm_num

/-- Three unit-direction witnesses for the transitivity scenario: vectors of
norm 10 with pairwise similarities 0.70, 0.70 and 0.60. -/
noncomputable def transA : List ℝ := [10, 0, 0]

noncomputable def transB : List ℝ := [7, Real.sqrt 51, 0]

noncomputable def transC : List ℝ := [6, 28 / Real.sqrt 51, Real.sqrt (2480 / 51)]

lemma sqrt51_pos : 0 < Real.sqrt 51 := Real.sqrt_pos.mpr (by norm_num)

lemma l2norm_transA : l2norm transA = 10 := by
  apply l2norm_eq_of_sq _ 10 (by norm_num)
  simp only [transA, dot_cons, dot_nil_left]
  norm_num

lemma l2norm_transB : l2norm transB = 10 := by
  apply l2norm_eq_of_sq _ 10 (by norm_num)
  have h : Real.sqrt 51 * Real.sqrt 51 = 51 := Real.mul_self_sqrt (by norm_num)
  simp only [transB, dot_cons, dot_nil_left, h]
  norm_num

lemma l2norm_transC : l2norm transC = 10 := by
  apply l2norm_eq_of_sq _ 10 (by norm_num)
  have h51 : Real.sqrt 51 * Real.sqrt 51 = 51 := Real.mul_self_sqrt (by norm_num)
  have h2480 : Real.sqrt (2480 / 51) * Real.sqrt (2480 / 51) = 2480 / 51 :=
    Real.mul_self_sqrt (by norm_num)
  have hne : Real.sqrt 51 ≠ 0 := ne_of_gt sqrt51_pos
  simp only [transC, dot_cons, dot_nil_left, h2480]
  have hdiv : 28 / Real.sqrt 51 * (28 / Real.sqrt 51) = 784 / 51 := by
    rw [div_mul_div_comm, h51]
    norm_num
  rw [hdiv]
  norm_num

lemma cs_transAB : cosine_similarity transA transB = 0.70 := by
  rw [cosine_similarity_eq _ _ 10 10 l2norm_transA l2norm_transB (by norm_num) (by norm_num)]
  simp only [transA, transB, dot_cons, dot_nil_left]
  norm_num

lemma cs_transBC : cosine_similarity transB transC = 0.70 := by
  rw [cosine_similarity_eq _ _ 10 10 l2norm_transB l2norm_transC (by norm_num) (by norm_num)]
  have hne : Real.sqrt 51 ≠ 0 := ne_of_gt sqrt51_pos
  simp only [transB, transC, dot_cons, dot_nil_left]
  have h : Real.sqrt 51 * (28 / Real.sqrt 51) = 28 := by
    field_simp
  rw [h]
  norm_num

lemma cs_transAC : cosine_similarity transA transC = 0.60 := by
  rw [cosine_similarity_eq _ _ 10 10 l2norm_transA l2norm_transC (by norm_num) (by norm_num)]
  simp only [transA, transC, dot_cons, dot_nil_left]
  norm_num

@[simp] lemma default_high : default_thresholds.high_similarity = 0.85 := rfl

@[simp] lemma default_low : default_thresholds.low_similarity = 0.30 := rfl

@[simp] lemma default_mid : default_thresholds.single_option_diff_min = 0.75 := rfl

/-- All pairwise cosine similarities among the rows of an embedding set are
nonnegative. -/
def sims_nonneg (e : List (List ℝ)) : Prop :=
  ∀ u ∈ e, ∀ v ∈ e, 0 ≤ cosine_similarity u v

lemma bound_price_extremes (e : List (List ℝ)) :
    0 ≤ evaluate_price_extremes default_thresholds e ∧
    evaluate_price_extremes default_thresholds e ≤ 1 := by
  rcases e with _ | ⟨u, _ | ⟨v, _ | ⟨w, rest⟩⟩⟩
  · norm_num [evaluate_price_extremes]
  · norm_num [evaluate_price_extremes]
  · simp only [evaluate_price_extremes, default_high, default_low]
    split_ifs with h1 h2
    · norm_num
    · norm_num
    · exact ⟨le_max_left 0 _, max_le (by norm_num) (min_le_left _ _)⟩
  · norm_num [evaluate_price_extremes]

lemma bound_color_sensitivity (e : List (List ℝ)) :
    0 ≤ evaluate_color_sensitivity default_thresholds e ∧
    evaluate_color_sensitivity default_thresholds e ≤ 1 := by
  rcases e with _ | ⟨u, _ | ⟨v, _ | ⟨w, rest⟩⟩⟩
  · norm_num [evaluate_color_sensitivity]
  · norm_num [evaluate_color_sensitivity]
  · simp only [evaluate_color_sensitivity, default_high]
    split_ifs with h1 h2
    · norm_num
    · norm_num
    · push_neg at h1 h2
      constructor
      · exact div_nonneg (by linarith) (by norm_num)
      · rw [div_le_one (by norm_num)]
        linarith
  · norm_num [evaluate_color_sensitivity]

lemma bound_vehicle_line_separation (e : List (List ℝ)) :
    0 ≤ evaluate_vehicle_line_separation default_thresholds e ∧
    evaluate_vehicle_line_separation default_thresholds e ≤ 1 := by
  simp only [evaluate_vehicle_line_separation, default_low]
  split_ifs with h1 h2 h3
  · norm_num
  · norm_num
  · norm_num
  · push_neg at h2 h3
    constructor
    · exact div_nonneg (by linarith) (by norm_num)
    · rw [div_le_one (by norm_num)]
      linarith

lemma bound_feature_correlation (e : List (List ℝ)) :
    0 ≤ evaluate_feature_correlation default_thresholds e ∧
    evaluate_feature_correlation default_thresholds e ≤ 1 := by
  rcases e with _ | ⟨a, _ | ⟨b, _ | ⟨c, _ | ⟨d, rest⟩⟩⟩⟩
  · norm_num [evaluate_feature_correlation]
  · norm_num [evaluate_feature_correlation]
  · norm_num [evaluate_feature_correlation]
  · simp only [evaluate_feature_correlation]
    have habs : 0 ≤ |(cosine_similarity a b + cosine_similarity b c +
        cosine_similarity a c) / 3 - 0.475| / 0.5 :=
      div_nonneg (abs_nonneg _) (by norm_num)
    split_ifs with h1 h2
    · norm_num
    · have hm0 : (0:ℝ) ≤ max 0 (1 - |(cosine_similarity a b + cosine_similarity b c +
          cosine_similarity a c) / 3 - 0.475| / 0.5) := le_max_left _ _
      have hm1 : max 0 (1 - |(cosine_similarity a b + cosine_similarity b c +
          cosine_similarity a c) / 3 - 0.475| / 0.5) ≤ 1 :=
        max_le (by norm_num) (by linarith)
      constructor <;> linarith
    · norm_num
    · have hm0 : (0:ℝ) ≤ max 0 (1 - |(cosine_similarity a b + cosine_similarity b c +
          cosine_similarity a c) / 3 - 0.475| / 0.5) := le_max_left _ _
      have hm1 : max 0 (1 - |(cosine_similarity a b + cosine_similarity b c +
          cosine_similarity a c) / 3 - 0.475| / 0.5) ≤ 1 :=
        max_le (by norm_num) (by linarith)
      constructor <;> linarith
  · norm_num [evaluate_feature_correlation]

lemma bound_model_year_sensitivity (e : List (List ℝ)) (hnn : sims_nonneg e) :
    0 ≤ evaluate_model_year_sensitivity default_thresholds e ∧
    evaluate_model_year_sensitivity default_thresholds e ≤ 1 := by
  rcases e with _ | ⟨u, _ | ⟨v, _ | ⟨w, rest⟩⟩⟩
  · norm_num [evaluate_model_year_sensitivity]
  · norm_num [evaluate_model_year_sensitivity]
  · have hs0 : 0 ≤ cosine_similarity u v := hnn u (by simp) v (by simp)
    simp only [evaluate_model_year_sensitivity]
    split_ifs with h1 h2
    · norm_num
    · constructor
      · exact div_nonneg hs0 (by norm_num)
      · rw [div_le_one (by norm_num)]
        linarith
    · have h75 : (0.75:ℝ) < cosine_similarity u v := by
        push_neg at h2
        by_contra hc
        push_neg at hc
        exact h1 ⟨h2, hc⟩
      constructor
      · exact le_max_left 0 _
      · apply max_le (by norm_num)
        have : 0 ≤ (cosine_similarity u v - 0.75) / (1 - 0.75) :=
          div_nonneg (by linarith) (by norm_num)
        linarith
  · norm_num [evaluate_model_year_sensitivity]

lemma bound_cross_year (e : List (List ℝ)) (hnn : sims_nonneg e) :
    0 ≤ evaluate_cross_year default_thresholds e ∧
    evaluate_cross_year default_thresholds e ≤ 1 := by
  rcases e with _ | ⟨u, _ | ⟨v, _ | ⟨w, rest⟩⟩⟩
  · norm_num [evaluate_cross_year]
  · norm_num [evaluate_cross_year]
  · have hs0 : 0 ≤ cosine_similarity u v := hnn u (by simp) v (by simp)
    simp only [evaluate_cross_year]
    split_ifs with h1 h2
    · norm_num
    · constructor
      · exact div_nonneg hs0 (by norm_num)
      · rw [div_le_one (by norm_num)]
        linarith
    · have h85 : (0.85:ℝ) < cosine_similarity u v := by
        push_neg at h2
        by_contra hc
        push_neg at hc
        exact h1 ⟨h2, hc⟩
      constructor
      · exact le_max_left 0 _
      · apply max_le (by norm_num)
        have : 0 ≤ (cosine_similarity u v - 0.85) / (1 - 0.85) :=
          div_nonneg (by linarith) (by norm_num)
        linarith
  · norm_num [evaluate_cross_year]

lemma bound_trim_similarity (e : List (List ℝ)) (hnn : sims_nonneg e) :
    0 ≤ evaluate_trim_similarity default_thresholds e ∧
    evaluate_trim_similarity default_thresholds e ≤ 1 := by
  have havg0 : 0 ≤ (pairwise_sims e).sum / (pairwise_sims e).length := by
    apply div_nonneg
    · apply List.sum_nonneg
      intro x hx
      obtain ⟨u, hu, v, hv, rfl⟩ := pairwise_sims_mem e x hx
      exact hnn u hu v hv
    · positivity
  simp only [evaluate_trim_similarity]
  split_ifs with h1 h2 h3
  · norm_num
  · norm_num
  · constructor
    · exact div_nonneg havg0 (by norm_num)
    · rw [div_le_one (by norm_num)]
      linarith
  · have h80 : (0.80:ℝ) < (pairwise_sims e).sum / (pairwise_sims e).length := by
      push_neg at h3
      by_contra hc
      push_neg at hc
      exact h2 ⟨h3, hc⟩
    constructor
    · exact le_max_left 0 _
    · apply max_le (by norm_num)
      have : 0 ≤ ((pairwise_sims e).sum / (pairwise_sims e).length - 0.80) / (1 - 0.80) :=
        div_nonneg (by linarith) (by norm_num)
      linarith

lemma bound_derivative_clustering (e : List (List ℝ)) (hnn : sims_nonneg e) :
    0 ≤ evaluate_derivative_clustering default_thresholds e ∧
    evaluate_derivative_clustering default_thresholds e ≤ 1 := by
  rcases e with _ | ⟨a, _ | ⟨b, _ | ⟨c, _ | ⟨d, _ | ⟨f, rest⟩⟩⟩⟩⟩
  · norm_num [evaluate_derivative_clustering]
  · norm_num [evaluate_derivative_clustering]
  · norm_num [evaluate_derivative_clustering]
  · norm_num [evaluate_derivative_clustering]
  · have hx0 : 0 ≤ (cosine_similarity a b + cosine_similarity a c +
        cosine_similarity b c) / 3 := by
      have h1 := hnn a (by simp) b (by simp)
      have h2 := hnn a (by simp) c (by simp)
      have h3 := hnn b (by simp) c (by simp)
      positivity
    have hy0 : 0 ≤ (cosine_similarity a d + cosine_similarity b d +
        cosine_similarity c d) / 3 := by
      have h1 := hnn a (by simp) d (by simp)
      have h2 := hnn b (by simp) d (by simp)
      have h3 := hnn c (by simp) d (by simp)
      positivity
    simp only [evaluate_derivative_clustering]
    set x := (cosine_similarity a b + cosine_similarity a c +
        cosine_similarity b c) / 3 with hxdef
    set y := (cosine_similarity a d + cosine_similarity b d +
        cosine_similarity c d) / 3 with hydef
    have hC0 : (0.5:ℝ) ≤ (if y < x then (1:ℝ) else 0.5) := by
      split_ifs <;> norm_num
    have hC1 : (if y < x then (1:ℝ) else 0.5) ≤ 1 := by
      split_ifs <;> norm_num
    have hS0 : (0:ℝ) ≤ (if 0.70 ≤ x then (1:ℝ) else x / 0.70) := by
      split_ifs
      · norm_num
      · exact div_nonneg hx0 (by norm_num)
    have hS1 : (if 0.70 ≤ x then (1:ℝ) else x / 0.70) ≤ 1 := by
      split_ifs with h
      · norm_num
      · push_neg at h
        rw [div_le_one (by norm_num)]
        linarith
    have hD0 : (0:ℝ) ≤ (if y < 0.50 then (1:ℝ) else max 0 ((0.80 - y) / 0.30)) := by
      split_ifs
      · norm_num
      · exact le_max_left _ _
    have hD1 : (if y < 0.50 then (1:ℝ) else max 0 ((0.80 - y) / 0.30)) ≤ 1 := by
      split_ifs with h
      · norm_num
      · push_neg at h
        apply max_le (by norm_num)
        rw [div_le_one (by norm_num)]
        linarith
    constructor <;> nlinarith [hC0, hC1, hS0, hS1, hD0, hD1]
  · norm_num [evaluate_derivative_clustering]

lemma bound_transitivity (e : List (List ℝ)) (hnn : sims_nonneg e) :
    0 ≤ evaluate_transitivity default_thresholds e ∧
    evaluate_transitivity default_thresholds e ≤ 1 := by
  rcases e with _ | ⟨a, _ | ⟨b, _ | ⟨c, rest⟩⟩⟩
  · norm_num [evaluate_transitivity]
  · norm_num [evaluate_transitivity]
  · norm_num [evaluate_transitivity]
  · have h0ac : 0 ≤ cosine_similarity a c := hnn a (by simp) c (by simp)
    simp only [evaluate_transitivity]
    split_ifs with h1 h2
    · norm_num
    · norm_num
    · push_neg at h1 h2
      have hm : 0 < min (cosine_similarity a b) (cosine_similarity b c) * 0.6 := by
        by_contra hc
        push_neg at hc
        linarith
      constructor
      · exact le_max_left 0 _
      · apply max_le (by norm_num)
        rw [div_le_one hm]
        linarith

lemma bound_single_option_diff (e : List (List ℝ)) (hnn : sims_nonneg e) :
    -1/110 ≤ evaluate_single_option_diff default_thresholds e ∧
    evaluate_single_option_diff default_thresholds e ≤ 1 := by
  rcases e with _ | ⟨a, _ | ⟨b, _ | ⟨c, _ | ⟨d, rest⟩⟩⟩⟩
  · norm_num [evaluate_single_option_diff]
  · norm_num [evaluate_single_option_diff]
  · norm_num [evaluate_single_option_diff]
  · have hp0 : 0 ≤ cosine_similarity a b := hnn a (by simp) b (by simp)
    have hq0 : 0 ≤ cosine_similarity a c := hnn a (by simp) c (by simp)
    have hq1 : cosine_similarity a c ≤ 1 := cosine_similarity_le_one a c
    simp only [evaluate_single_option_diff, default_high, default_low, default_mid]
    set p := cosine_similarity a b with hpdef
    set q := cosine_similarity a c with hqdef
    have hS0 : (0:ℝ) ≤ (if 0.75 ≤ p then (1:ℝ) else p / 0.75) := by
      split_ifs
      · norm_num
      · exact div_nonneg hp0 (by norm_num)
    have hS1 : (if 0.75 ≤ p then (1:ℝ) else p / 0.75) ≤ 1 := by
      split_ifs with h
      · norm_num
      · push_neg at h
        rw [div_le_one (by norm_num)]
        linarith
    have hD0 : (-3/11 : ℝ) ≤ (if q < 0.30 then (1:ℝ) else (0.85 - q) / (0.85 - 0.30)) := by
      split_ifs with h
      · norm_num
      · rw [le_div_iff (by norm_num : (0:ℝ) < 0.85 - 0.30)]
        linarith
    have hD1 : (if q < 0.30 then (1:ℝ) else (0.85 - q) / (0.85 - 0.30)) ≤ 1 := by
      split_ifs with h
      · norm_num
      · push_neg at h
        rw [div_le_one (by norm_num : (0:ℝ) < 0.85 - 0.30)]
        linarith
    have hR0 : (0.5:ℝ) ≤ (if q < p then (1:ℝ) else 0.5) := by
      split_ifs <;> norm_num
    have hR1 : (if q < p then (1:ℝ) else 0.5) ≤ 1 := by
      split_ifs <;> norm_num
    constructor <;> nlinarith [hS0, hS1, hD0, hD1, hR0, hR1]
  · norm_num [evaluate_single_option_diff]

/-- C1 (counterexample): the test 2 evaluator, applied to an embedding set
with similarities sim(A,B) = -1 and sim(A,C) = 1, returns -179/330, a value
outside [0,1].  This refutes the claim that every evaluator returns a float
in [0,1] for every embedding set including ones with negative pairwise
cosine similarity. -/
theorem C1_counterexample_test2_negative :
    evaluate_single_option_diff default_thresholds [[(1:ℝ), 0], [-1, 0], [1, 0]] = -179/330 ∧
    evaluate_single_option_diff default_thresholds [[(1:ℝ), 0], [-1, 0], [1, 0]] < 0 := by
  have h : evaluate_single_option_diff default_thresholds
      [[(1:ℝ), 0], [-1, 0], [1, 0]] = -179/330 := by
    simp only [evaluate_single_option_diff, default_high, default_low, default_mid,
      cs_10_m10, cs_10_10]
    norm_num
  exact ⟨h, by rw [h]; norm_num⟩

/-- C1 (amended): under the default thresholds, the evaluators for tests
1, 4, 6 and 8 return a value in [0,1] for every embedding set; the
evaluators for tests 3, 5, 7, 9 and 10 return a value in [0,1] whenever all
pairwise cosine similarities among the rows are nonnegative; the test 2
evaluator can be negative even then and is only guaranteed to lie in
[-1/110, 1]. -/
theorem C1_amended_evaluator_ranges :
    (∀ e : List (List ℝ),
      (0 ≤ evaluate_price_extremes default_thresholds e ∧
        evaluate_price_extremes default_thresholds e ≤ 1) ∧
      (0 ≤ evaluate_color_sensitivity default_thresholds e ∧
        evaluate_color_sensitivity default_thresholds e ≤ 1) ∧
      (0 ≤ evaluate_vehicle_line_separation default_thresholds e ∧
        evaluate_vehicle_line_separation default_thresholds e ≤ 1) ∧
      (0 ≤ evaluate_feature_correlation default_thresholds e ∧
        evaluate_feature_correlation default_thresholds e ≤ 1)) ∧
    (∀ e : List (List ℝ), sims_nonneg e →
      (0 ≤ evaluate_model_year_sensitivity default_thresholds e ∧
        evaluate_model_year_sensitivity default_thresholds e ≤ 1) ∧
      (0 ≤ evaluate_trim_similarity default_thresholds e ∧
        evaluate_trim_similarity default_thresholds e ≤ 1) ∧
      (0 ≤ evaluate_derivative_clustering default_thresholds e ∧
        evaluate_derivative_clustering default_thresholds e ≤ 1) ∧
      (0 ≤ evaluate_transitivity default_thresholds e ∧
        evaluate_transitivity default_thresholds e ≤ 1) ∧
      (0 ≤ evaluate_cross_year default_thresholds e ∧
        evaluate_cross_year default_thresholds e ≤ 1)) ∧
    (∀ e : List (List ℝ), sims_nonneg e →
      -1/110 ≤ evaluate_single_option_diff default_thresholds e ∧
        evaluate_single_option_diff default_thresholds e ≤ 1) :=
  ⟨fun e => ⟨bound_price_extremes e, bound_color_sensitivity e,
    bound_vehicle_line_separation e, bound_feature_correlation e⟩,
   fun e h => ⟨bound_model_year_sensitivity e h, bound_trim_similarity e h,
    bound_derivative_clustering e h, bound_transitivity e h, bound_cross_year e h⟩,
   fun e h => bound_single_option_diff e h⟩

/-- C1 (witness): the amended range claim instantiated on the concrete
orthonormal embedding set [[1,0],[0,1]]. -/
theorem C1_amended_evaluator_ranges_witness :
    0 ≤ evaluate_model_year_sensitivity default_thresholds [[(1:ℝ), 0], [0, 1]] ∧
    evaluate_model_year_sensitivity default_thresholds [[(1:ℝ), 0], [0, 1]] ≤ 1 ∧
    -1/110 ≤ evaluate_single_option_diff default_thresholds [[(1:ℝ), 0], [0, 1]] := by
  have hnn : sims_nonneg [[(1:ℝ), 0], [0, 1]] := by
    intro u hu v hv
    simp only [List.mem_cons, List.not_mem_nil, or_false] at hu hv
    rcases hu with rfl | rfl <;> rcases hv with rfl | rfl
    · rw [cs_10_10]; norm_num
    · rw [cs_10_01]
    · rw [cs_01_10]
    · rw [cs_01_01]; norm_num
  obtain ⟨h1, h2⟩ := (C1_amended_evaluator_ranges.2.1 _ hnn).1
  exact ⟨h1, h2, (C1_amended_evaluator_ranges.2.2 _ hnn).1⟩

/-- C5: cosine similarity involving a zero-magnitude vector is defined and
equal to 0.0; no division by zero occurs, and an evaluator given a zero
vector still returns a numeric score (test 1 returns 1.0 since the
similarity 0 is below the default low threshold). -/
theorem C5_zero_vector_similarity :
    (∀ u v : List ℝ, l2norm u = 0 ∨ l2norm v = 0 → cosine_similarity u v = 0) ∧
    (∀ (n : ℕ) (v : List ℝ), cosine_similarity (List.replicate n 0) v = 0 ∧
      cosine_similarity v (List.replicate n 0) = 0) ∧
    (∀ (n : ℕ) (v : List ℝ),
      evaluate_price_extremes default_thresholds [List.replicate n 0, v] = 1) := by
  have hbase : ∀ u v : List ℝ, l2norm u = 0 ∨ l2norm v = 0 →
      cosine_similarity u v = 0 := by
    intro u v h
    rw [cosine_similarity, if_pos h]
  refine ⟨hbase, fun n v => ⟨hbase _ _ (Or.inl (l2norm_replicate_zero n)),
    hbase _ _ (Or.inr (l2norm_replicate_zero n))⟩, fun n v => ?_⟩
  simp only [evaluate_price_extremes, default_low, default_high]
  rw [hbase _ _ (Or.inl (l2norm_replicate_zero n))]
  norm_num

/-- C5 (witness): similarity of the zero vector [0,0] with [3,4] is 0. -/
theorem C5_zero_vector_similarity_witness :
    cosine_similarity [(0:ℝ), 0] [3, 4] = 0 :=
  C5_zero_vector_similarity.1 _ _ (Or.inl l2norm_00)

/-- C6: under the default thresholds, the test 1 evaluator on a 2-element
embedding set returns 1.0 when the pairwise similarity is exactly 0.30 and
0.0 when it is exactly 0.85; both boundary values are handled by the linear
interpolation branch since the guards use strict comparisons. -/
theorem C6_test1_boundaries :
    (∀ u v : List ℝ, cosine_similarity u v = 0.30 →
      evaluate_price_extremes default_thresholds [u, v] = 1) ∧
    (∀ u v : List ℝ, cosine_similarity u v = 0.85 →
      evaluate_price_extremes default_thresholds [u, v] = 0) := by
  constructor <;> intro u v h <;>
    simp only [evaluate_price_extremes, default_low, default_high, h] <;>
    norm_num [min_def, max_def]

/-- C6 (witness): embedding pairs with similarity exactly 0.30 and exactly
0.85, built from square roots. -/
theorem C6_test1_boundaries_witness :
    evaluate_price_extremes default_thresholds [[(1:ℝ), 0], [3, Real.sqrt 91]] = 1 ∧
    evaluate_price_extremes default_thresholds [[(1:ℝ), 0], [17, Real.sqrt 111]] = 0 :=
  ⟨C6_test1_boundaries.1 _ _ cs_sqrt91, C6_test1_boundaries.2 _ _ cs_sqrt111⟩

/-- C7: an evaluator given an embedding set of the wrong cardinality
returns exactly 0.0: tests 1, 3, 4, 10 require exactly 2 rows; tests 2 and
8 exactly 3; test 7 exactly 4; tests 5 and 6 at least 2; test 9 at least 3. -/
theorem C7_cardinality_mismatch :
    ∀ (th : Thresholds) (e : List (List ℝ)),
      (e.length ≠ 2 →
        evaluate_price_extremes th e = 0 ∧ evaluate_model_year_sensitivity th e = 0 ∧
        evaluate_color_sensitivity th e = 0 ∧ evaluate_cross_year th e = 0) ∧
      (e.length ≠ 3 →
        evaluate_single_option_diff th e = 0 ∧ evaluate_feature_correlation th e = 0) ∧
      (e.length ≠ 4 → evaluate_derivative_clustering th e = 0) ∧
      (e.length < 2 →
        evaluate_trim_similarity th e = 0 ∧ evaluate_vehicle_line_separation th e = 0) ∧
      (e.length < 3 → evaluate_transitivity th e = 0) := by
  intro th e
  refine ⟨?_, ?_, ?_, ?_, ?_⟩
  · intro h
    rcases e with _ | ⟨a, _ | ⟨b, _ | ⟨c, rest⟩⟩⟩
    · exact ⟨rfl, rfl, rfl, rfl⟩
    · exact ⟨rfl, rfl, rfl, rfl⟩
    · exact absurd rfl h
    · exact ⟨rfl, rfl, rfl, rfl⟩
  · intro h
    rcases e with _ | ⟨a, _ | ⟨b, _ | ⟨c, _ | ⟨d, rest⟩⟩⟩⟩
    · exact ⟨rfl, rfl⟩
    · exact ⟨rfl, rfl⟩
    · exact ⟨rfl, rfl⟩
    · exact absurd rfl h
    · exact ⟨rfl, rfl⟩
  · intro h
    rcases e with _ | ⟨a, _ | ⟨b, _ | ⟨c, _ | ⟨d, _ | ⟨f, rest⟩⟩⟩⟩⟩
    · rfl
    · rfl
    · rfl
    · rfl
    · exact absurd rfl h
    · rfl
  · intro h
    rcases e with _ | ⟨a, _ | ⟨b, rest⟩⟩
    · exact ⟨rfl, rfl⟩
    · exact ⟨rfl, rfl⟩
    · simp only [List.length_cons] at h
      omega
  · intro h
    rcases e with _ | ⟨a, _ | ⟨b, _ | ⟨c, rest⟩⟩⟩
    · rfl
    · rfl
    · rfl
    · simp only [List.length_cons] at h
      omega

/-- C7 (witness): concrete wrong-cardinality inputs for several evaluators,
including test 7 given 3 and given 5 rows. -/
theorem C7_cardinality_mismatch_witness :
    evaluate_price_extremes default_thresholds [[(1:ℝ)], [1], [1]] = 0 ∧
    evaluate_derivative_clustering default_thresholds [[(1:ℝ)], [1], [1]] = 0 ∧
    evaluate_derivative_clustering default_thresholds [[(1:ℝ)], [1], [1], [1], [1]] = 0 ∧
    evaluate_single_option_diff default_thresholds [[(1:ℝ)], [1]] = 0 ∧
    evaluate_trim_similarity default_thresholds [[(1:ℝ)]] = 0 ∧
    evaluate_transitivity default_thresholds [[(1:ℝ)], [1]] = 0 :=
  ⟨((C7_cardinality_mismatch default_thresholds _).1 (by norm_num)).1,
    (C7_cardinality_mismatch default_thresholds _).2.2.1 (by norm_num),
    (C7_cardinality_mismatch default_thresholds _).2.2.1 (by norm_num),
    ((C7_cardinality_mismatch default_thresholds _).2.1 (by norm_num)).1,
    ((C7_cardinality_mismatch default_thresholds _).2.2.2.1 (by norm_num)).1,
    (C7_cardinality_mismatch default_thresholds _).2.2.2.2 (by norm_num)⟩

/-- C8: the test 9 evaluator on at least 3 rows returns 1.0 when
sim(A,C) is at least 0.8 times min(sim(A,B), sim(B,C)), 0.7 when it is at
least 0.6 times that minimum, and otherwise max(0, sim(A,C)/(0.6 min));
in particular sim_ab = sim_bc = 0.70 with sim_ac = 0.60 scores 1.0. -/
theorem C8_transitivity_scoring :
    (∀ (th : Thresholds) (a b c : List ℝ) (rest : List (List ℝ)),
      evaluate_transitivity th (a :: b :: c :: rest) =
        (if min (cosine_similarity a b) (cosine_similarity b c) * 0.8 ≤
            cosine_similarity a c then 1
         else if min (cosine_similarity a b) (cosine_similarity b c) * 0.6 ≤
            cosine_similarity a c then 0.7
         else max 0 (cosine_similarity a c /
            (min (cosine_similarity a b) (cosine_similarity b c) * 0.6)))) ∧
    (∀ (th : Thresholds) (a b c : List ℝ) (rest : List (List ℝ)),
      cosine_similarity a b = 0.70 → cosine_similarity b c = 0.70 →
      cosine_similarity a c = 0.60 →
      evaluate_transitivity th (a :: b :: c :: rest) = 1) := by
  constructor
  · intro th a b c rest
    rfl
  · intro th a b c rest hab hbc hac
    simp only [evaluate_transitivity, hab, hbc, hac, min_self]
    norm_num

/-- C8 (witness): three concrete vectors of norm 10 with pairwise
similarities exactly 0.70, 0.70 and 0.60 score 1.0. -/
theorem C8_transitivity_scoring_witness :
    evaluate_transitivity default_thresholds [transA, transB, transC] = 1 :=
  C8_transitivity_scoring.2 default_thresholds transA transB transC []
    cs_transAB cs_transBC cs_transAC

/-- C9: the evaluators for tests 3, 5, 8 and 10 never read the threshold
configuration (their band edges are fixed constants), so any two threshold
configurations produce identical results on the same embedding set. -/
theorem C9_fixed_band_threshold_independence :
    ∀ (th1 th2 : Thresholds) (e : List (List ℝ)),
      evaluate_model_year_sensitivity th1 e = evaluate_model_year_sensitivity th2 e ∧
      evaluate_trim_similarity th1 e = evaluate_trim_similarity th2 e ∧
      evaluate_feature_correlation th1 e = evaluate_feature_correlation th2 e ∧
      evaluate_cross_year th1 e = evaluate_cross_year th2 e :=
  fun _ _ _ => ⟨rfl, rfl, rfl, rfl⟩

lemma evaluate_all_tests_none_of_emb (th : Thresholds)
    (processed : List (String × SubVal)) (l : List String) (tid : String)
    (rows : List (List ℝ)) (htid : tid ∈ l)
    (h : lookupKey processed tid = some (SubVal.emb rows)) :
    evaluate_all_tests th processed l = none := by
  induction l with
  | nil => exact absurd htid (List.not_mem_nil tid)
  | cons t rest ih =>
    rcases List.mem_cons.mp htid with rfl | htid'
    · simp only [evaluate_all_tests, h]
    · rcases hl : lookupKey processed t with _ | v
      · simp only [evaluate_all_tests, hl]
        exact ih htid'
      · rcases v with entries | rows'
        · simp only [evaluate_all_tests, hl]
          split_ifs with htr
          · simp only [ih htid']
          · exact ih htid'
        · simp only [evaluate_all_tests, hl]

lemma evaluate_all_tests_isSome (th : Thresholds)
    (processed : List (String × SubVal)) (l : List String)
    (h : ∀ tid ∈ l, ∀ rows, lookupKey processed tid ≠ some (SubVal.emb rows)) :
    ∃ scores, evaluate_all_tests th processed l = some scores := by
  induction l with
  | nil => exact ⟨[], rfl⟩
  | cons t rest ih =>
    obtain ⟨scores, hs⟩ := ih (fun tid htid => h tid (List.mem_cons_of_mem t htid))
    rcases hl : lookupKey processed t with _ | v
    · simp only [evaluate_all_tests, hl]
      exact ⟨scores, hs⟩
    · rcases v with entries | rows'
      · simp only [evaluate_all_tests, hl]
        split_ifs with htr
        · exact ⟨(t, evaluate_test_entry th t entries) :: scores, by simp only [hs]⟩
        · exact ⟨scores, hs⟩
      · exact absurd hl (h t (List.mem_cons_self t rest) rows')

/-- The evaluation loop aborts exactly when some listed test identifier maps
to a non-dict entry in `processed_data`. -/
lemma evaluate_all_tests_eq_none_iff (th : Thresholds)
    (processed : List (String × SubVal)) (l : List String) :
    evaluate_all_tests th processed l = none ↔
      ∃ tid ∈ l, ∃ rows, lookupKey processed tid = some (SubVal.emb rows) := by
  constructor
  · intro h
    by_contra hc
    push_neg at hc
    obtain ⟨scores, hs⟩ := evaluate_all_tests_isSome th processed l hc
    rw [hs] at h
    exact absurd h (by simp)
  · rintro ⟨tid, htid, rows, hrows⟩
    exact evaluate_all_tests_none_of_emb th processed l tid rows htid hrows

/-- C2 (counterexample): a submission whose `metadata` value is not a
mapping is nevertheless accepted (valid = true with score 0.0), because
`_validate_submission_format` never checks the type of `metadata`.  This
refutes the claimed if-and-only-if characterisation. -/
theorem C2_counterexample_metadata_not_checked :
    (evaluate_submission default_thresholds
      [("processed_data", SubVal.dict []), ("metadata", SubVal.emb [])]).valid = true :=
  rfl

/-- C2 (amended): `evaluate_submission` returns valid = false if and only if
the submission is missing `processed_data`, is missing `metadata`, has a
non-mapping `processed_data` value, or has a `processed_data` mapping in
which some of the ten test identifiers maps to a non-mapping entry (which
aborts the evaluation loop); a non-mapping `metadata` value is accepted.
Moreover, whenever `processed_data` is present and `metadata` is absent,
the result is invalid with score 0.0 and the error string is exactly
"Missing required field: metadata". -/
theorem C2_amended_validation :
    (∀ (th : Thresholds) (results : List (String × SubVal)),
      ((evaluate_submission th results).valid = false ↔
        lookupKey results "processed_data" = none ∨
        lookupKey results "metadata" = none ∨
        (∃ rows, lookupKey results "processed_data" = some (SubVal.emb rows)) ∨
        (∃ entries, lookupKey results "processed_data" = some (SubVal.dict entries) ∧
          ∃ tid ∈ test_ids, ∃ rows, lookupKey entries tid = some (SubVal.emb rows)))) ∧
    (∀ (th : Thresholds) (results : List (String × SubVal)),
      (lookupKey results "processed_data").isSome →
      lookupKey results "metadata" = none →
      (evaluate_submission th results).error = some "Missing required field: metadata" ∧
      (evaluate_submission th results).valid = false ∧
      (evaluate_submission th results).score = 0) := by
  constructor
  · intro th results
    rcases hpd : lookupKey results "processed_data" with _ | v
    · have hv : (evaluate_submission th results).valid = false := by
        simp [evaluate_submission, validate_submission_format, hpd]
      rw [hv]
      simp [hpd]
    · rcases hmd : lookupKey results "metadata" with _ | w
      · have hv : (evaluate_submission th results).valid = false := by
          simp [evaluate_submission, validate_submission_format, hpd, hmd]
        rw [hv]
        simp [hpd, hmd]
      · rcases v with entries | rows
        · rcases hev : evaluate_all_tests th entries test_ids with _ | scores
          · have hv : (evaluate_submission th results).valid = false := by
              simp [evaluate_submission, validate_submission_format, hpd, hmd, hev]
            rw [hv]
            simp only [hpd, hmd, eq_self_iff_true, true_iff]
            refine Or.inr (Or.inr (Or.inr ⟨entries, rfl, ?_⟩))
            exact (evaluate_all_tests_eq_none_iff th entries test_ids).mp hev
          · have hv : (evaluate_submission th results).valid = true := by
              simp [evaluate_submission, validate_submission_format, hpd, hmd, hev]
            rw [hv]
            constructor
            · intro hc
              exact absurd hc (by simp)
            · rintro (h1 | h2 | ⟨rows, h3⟩ | ⟨entries', heq, tid, htid, rows, hrows⟩)
              · exact absurd h1 (by simp)
              · exact absurd h2 (by simp)
              · exact absurd h3 (by simp)
              · have hent : entries = entries' := by
                  injection heq with heq'
                  injection heq'
                subst hent
                have hnone := evaluate_all_tests_none_of_emb th entries test_ids
                  tid rows htid hrows
                rw [hev] at hnone
                exact absurd hnone (by simp)
        · have hv : (evaluate_submission th results).valid = false := by
            simp [evaluate_submission, validate_submission_format, hpd, hmd]
          rw [hv]
          refine iff_of_true rfl ?_
          exact Or.inr (Or.inr (Or.inl ⟨rows, rfl⟩))
  · intro th results hpd hmd
    obtain ⟨v, hv⟩ := Option.isSome_iff_exists.mp hpd
    refine ⟨?_, ?_, ?_⟩ <;>
      simp [evaluate_submission, validate_submission_format, hv, hmd]

/-- C2 (witness): the amended characterisation instantiated: a submission
with `processed_data` present but `metadata` missing produces exactly the
claimed error message, invalid and score 0. -/
theorem C2_amended_validation_witness :
    (evaluate_submission default_thresholds
      [("processed_data", SubVal.dict [])]).error =
        some "Missing required field: metadata" ∧
    (evaluate_submission default_thresholds
      [("processed_data", SubVal.dict [])]).valid = false ∧
    (evaluate_submission default_thresholds
      [("processed_data", SubVal.dict [])]).score = 0 :=
  C2_amended_validation.2 default_thresholds [("processed_data", SubVal.dict [])]
    (by rfl) (by rfl)

/-- Rows whose transitivity similarities are sim_ab = -1, sim_bc = 1,
sim_ac = -1, so min_pairwise is negative. -/
noncomputable def transitivity_rows : List (List ℝ) := [[1, 0], [-1, 0], [-1, 0]]

/-- A well-formed submission whose only test is `test_9` with
`transitivity_rows`. -/
noncomputable def results_with_bad_test9 : List (String × SubVal) :=
  [("processed_data", SubVal.dict [("test_9",
      SubVal.dict [("embeddings", SubVal.emb transitivity_rows)])]),
   ("metadata", SubVal.dict [])]

/-- C3 (counterexample): for `test_9` inputs with negative minimum pairwise
similarity, `sim_ac / (0.6 * min)` is a finite value greater than 1 (here
5/3), and the pipeline records it (rounded to 1.667) rather than 0.0: there
is no finiteness or range check on evaluator results. -/
theorem C3_counterexample_nonzero_recorded :
    evaluate_transitivity default_thresholds transitivity_rows = 5/3 ∧
    (evaluate_submission default_thresholds results_with_bad_test9).test_scores =
      some [("test_9", 1667/1000)] ∧
    (evaluate_submission default_thresholds results_with_bad_test9).test_scores ≠
      some [("test_9", 0)] := by
  have heval : evaluate_transitivity default_thresholds transitivity_rows = 5/3 := by
    simp only [transitivity_rows, evaluate_transitivity, cs_10_m10, cs_m10_m10]
    norm_num [min_def, max_def]
  have h1 : (evaluate_submission default_thresholds results_with_bad_test9).test_scores =
      some [("test_9",
        round3 (evaluate_transitivity default_thresholds transitivity_rows))] := rfl
  have hr : round3 ((5:ℝ)/3) = 1667/1000 := by
    unfold round3
    rw [round_eq]
    norm_num
  refine ⟨heval, ?_, ?_⟩
  · rw [h1, heval, hr]
  · rw [h1, heval, hr]
    intro hc
    simp only [Option.some_inj, List.cons.injEq, Prod.mk.injEq] at hc
    norm_num at hc

/-- C3 (amended): an evaluator raise (invalid rows) is caught and recorded
as 0.0, and as long as every test entry is itself a mapping the evaluation
loop completes for the whole submission; however evaluator return values
are recorded without any finiteness or range check.  For test 9, when the
minimum pairwise similarity is exactly 0 (with sim_ac negative) the
division by zero is clamped to 0.0 by the max, but when the minimum is
negative (with sim_ac below 0.8 of it) the division yields a finite value
of at least 4/3 which is returned as is. -/
theorem C3_amended_fault_isolation :
    (∀ (th : Thresholds) (tid : String) (entries : List (String × SubVal))
        (rows : List (List ℝ)),
      lookupKey entries "embeddings" = some (SubVal.emb rows) →
      has_invalid_rows rows = true →
      evaluate_test_entry th tid entries = 0) ∧
    (∀ (th : Thresholds) (processed : List (String × SubVal)),
      (∀ tid ∈ test_ids, ∀ rows, lookupKey processed tid ≠ some (SubVal.emb rows)) →
      ∃ scores, evaluate_all_tests th processed test_ids = some scores) ∧
    (∀ (th : Thresholds) (a b c : List ℝ) (rest : List (List ℝ)),
      min (cosine_similarity a b) (cosine_similarity b c) = 0 →
      cosine_similarity a c < 0 →
      evaluate_transitivity th (a :: b :: c :: rest) = 0) ∧
    (∀ (th : Thresholds) (a b c : List ℝ) (rest : List (List ℝ)),
      min (cosine_similarity a b) (cosine_similarity b c) < 0 →
      cosine_similarity a c <
        min (cosine_similarity a b) (cosine_similarity b c) * 0.8 →
      evaluate_transitivity th (a :: b :: c :: rest) =
        cosine_similarity a c /
          (min (cosine_similarity a b) (cosine_similarity b c) * 0.6) ∧
      4/3 ≤ evaluate_transitivity th (a :: b :: c :: rest)) := by
  refine ⟨?_, ?_, ?_, ?_⟩
  · intro th tid entries rows hemb hbad
    simp only [evaluate_test_entry, hemb, Option.getD_some, hbad, if_true]
  · intro th processed h
    exact evaluate_all_tests_isSome th processed test_ids h
  · intro th a b c rest hmin hac
    simp only [evaluate_transitivity, hmin]
    rw [if_neg (by rw [zero_mul]; exact not_le.mpr hac),
      if_neg (by rw [zero_mul]; exact not_le.mpr hac), zero_mul, div_zero, max_self]
  · intro th a b c rest hmin hac
    have hden : min (cosine_similarity a b) (cosine_similarity b c) * 0.6 < 0 := by
      nlinarith
    have hge : 4/3 ≤ cosine_similarity a c /
        (min (cosine_similarity a b) (cosine_similarity b c) * 0.6) := by
      rw [le_div_iff_of_neg hden]
      nlinarith
    have hval : evaluate_transitivity th (a :: b :: c :: rest) =
        cosine_similarity a c /
          (min (cosine_similarity a b) (cosine_similarity b c) * 0.6) := by
      simp only [evaluate_transitivity]
      rw [if_neg (by nlinarith), if_neg (by nlinarith)]
      exact max_eq_right (by linarith)
    exact ⟨hval, hval ▸ hge⟩

/-- C3 (witness): the amended claim instantiated on concrete inputs:
ragged rows are scored 0.0, an all-dict submission completes, the zero-min
case clamps to 0.0, and the negative-min case returns the division result. -/
theorem C3_amended_fault_isolation_witness :
    evaluate_test_entry default_thresholds "test_1"
      [("embeddings", SubVal.emb [[1], [1, 2]])] = 0 ∧
    (∃ scores, evaluate_all_tests default_thresholds [] test_ids = some scores) ∧
    evaluate_transitivity default_thresholds [[(1:ℝ), 0], [0, 1], [-1, 0]] = 0 ∧
    evaluate_transitivity default_thresholds [[(1:ℝ), 0], [-1, 0], [-1, 0]] =
      cosine_similarity [(1:ℝ), 0] [-1, 0] /
        (min (cosine_similarity [(1:ℝ), 0] [-1, 0])
          (cosine_similarity [(-1:ℝ), 0] [-1, 0]) * 0.6) := by
  refine ⟨C3_amended_fault_isolation.1 default_thresholds "test_1" _ [[1], [1, 2]] rfl rfl,
    C3_amended_fault_isolation.2.1 default_thresholds []
      (by intro tid htid rows hc; simp [lookupKey] at hc),
    C3_amended_fault_isolation.2.2.1 default_thresholds _ _ _ [] ?_ ?_,
    (C3_amended_fault_isolation.2.2.2 default_thresholds _ _ _ [] ?_ ?_).1⟩
  · rw [cs_10_01, cs_01_m10]
    exact min_self 0
  · rw [cs_10_m10]
    norm_num
  · rw [cs_10_m10, cs_m10_m10]
    norm_num [min_def]
  · rw [cs_10_m10, cs_m10_m10]
    norm_num [min_def]

/-- C4: for any submission that passes validation and whose evaluation loop
completes, the final score is the 3-decimal rounding of the fixed weighted
sum over all ten test identifiers, where a test with no recorded score
contributes 0 while its weight stays in the sum (no re-normalisation), and
every per-test score in the details is rounded to 3 decimals. -/
theorem C4_weighted_sum :
    ∀ (th : Thresholds) (results : List (String × SubVal))
      (scores : List (String × ℝ)) (entries : List (String × SubVal)),
      validate_submission_format results = none →
      lookupKey results "processed_data" = some (SubVal.dict entries) →
      evaluate_all_tests th entries test_ids = some scores →
      (evaluate_submission th results).score =
        round3 ((lookup_score scores "test_1").getD 0 * 0.15 +
          (lookup_score scores "test_2").getD 0 * 0.15 +
          (lookup_score scores "test_3").getD 0 * 0.10 +
          (lookup_score scores "test_4").getD 0 * 0.10 +
          (lookup_score scores "test_5").getD 0 * 0.10 +
          (lookup_score scores "test_6").getD 0 * 0.10 +
          (lookup_score scores "test_7").getD 0 * 0.10 +
          (lookup_score scores "test_8").getD 0 * 0.10 +
          (lookup_score scores "test_9").getD 0 * 0.05 +
          (lookup_score scores "test_10").getD 0 * 0.05) ∧
      (evaluate_submission th results).test_scores =
        some (scores.map (fun p => (p.1, round3 p.2))) := by
  intro th results scores entries hval hpd hev
  constructor
  · simp only [evaluate_submission, hval, hpd, hev, test_weight_mapping,
      List.map_cons, List.map_nil, List.sum_cons, List.sum_nil]
    congr 1
    ring
  · simp only [evaluate_submission, hval, hpd, hev]

/-- A submission containing only `test_1` with two orthogonal embeddings. -/
noncomputable def c4_entries : List (String × SubVal) :=
  [("test_1", SubVal.dict [("embeddings", SubVal.emb [[1, 0], [0, 1]])])]

/-- Wrapper submission for `c4_entries`. -/
noncomputable def c4_submission : List (String × SubVal) :=
  [("processed_data", SubVal.dict c4_entries), ("metadata", SubVal.dict [])]

/-- C4 (witness): the submission with only `test_1` present and orthogonal
embeddings scores round3(1.0 x 0.15) = 0.15, with test_1 recorded as 1.0. -/
theorem C4_weighted_sum_witness :
    (evaluate_submission default_thresholds c4_submission).score = 0.15 ∧
    (evaluate_submission default_thresholds c4_submission).test_scores =
      some [("test_1", (1:ℝ))] := by
  have hscore1 : evaluate_price_extremes default_thresholds [[(1:ℝ), 0], [0, 1]] = 1 := by
    simp only [evaluate_price_extremes, cs_10_01, default_low, default_high]
    norm_num
  have hev0 : evaluate_all_tests default_thresholds c4_entries test_ids =
      some [("test_1", evaluate_price_extremes default_thresholds [[(1:ℝ), 0], [0, 1]])] := rfl
  have hev : evaluate_all_tests default_thresholds c4_entries test_ids =
      some [("test_1", (1:ℝ))] := by rw [hev0, hscore1]
  have h := C4_weighted_sum default_thresholds c4_submission [("test_1", (1:ℝ))]
    c4_entries rfl rfl hev
  constructor
  · rw [h.1]
    have e1 : (lookup_score [("test_1", (1:ℝ))] "test_1").getD 0 = 1 := rfl
    have e2 : (lookup_score [("test_1", (1:ℝ))] "test_2").getD 0 = 0 := rfl
    have e3 : (lookup_score [("test_1", (1:ℝ))] "test_3").getD 0 = 0 := rfl
    have e4 : (lookup_score [("test_1", (1:ℝ))] "test_4").getD 0 = 0 := rfl
    have e5 : (lookup_score [("test_1", (1:ℝ))] "test_5").getD 0 = 0 := rfl
    have e6 : (lookup_score [("test_1", (1:ℝ))] "test_6").getD 0 = 0 := rfl
    have e7 : (lookup_score [("test_1", (1:ℝ))] "test_7").getD 0 = 0 := rfl
    have e8 : (lookup_score [("test_1", (1:ℝ))] "test_8").getD 0 = 0 := rfl
    have e9 : (lookup_score [("test_1", (1:ℝ))] "test_9").getD 0 = 0 := rfl
    have e10 : (lookup_score [("test_1", (1:ℝ))] "test_10").getD 0 = 0 := rfl
    rw [e1, e2, e3, e4, e5, e6, e7, e8, e9, e10]
    unfold round3
    rw [round_eq]
    norm_num
  · rw [h.2]
    have hr1 : round3 (1:ℝ) = 1 := by
      unfold round3
      rw [round_eq]
      norm_num
    simp [hr1]

/-- Whether a test identifier is attempted by the evaluation loop: present
in `processed_data` as a mapping whose `embeddings` value is truthy. -/
def attempted (processed : List (String × SubVal)) (tid : String) : Bool :=
  match lookupKey processed tid with
  | some (SubVal.dict entries) =>
      truthy ((lookupKey entries "embeddings").getD (SubVal.emb []))
  | _ => false

lemma evaluate_all_tests_keys (th : Thresholds) (processed : List (String × SubVal)) :
    ∀ (l : List String) (scores : List (String × ℝ)),
      evaluate_all_tests th processed l = some scores →
      scores.map (fun p => p.1) = l.filter (fun tid => attempted processed tid) := by
  intro l
  induction l with
  | nil =>
    intro scores h
    simp only [evaluate_all_tests, Option.some_inj] at h
    rw [← h]
    rfl
  | cons t rest ih =>
    intro scores h
    rcases hl : lookupKey processed t with _ | v
    · simp only [evaluate_all_tests, hl] at h
      rw [ih scores h]
      have hat : attempted processed t = false := by
        simp [attempted, hl]
      simp [List.filter_cons, hat]
    · rcases v with entries | rows
      · simp only [evaluate_all_tests, hl] at h
        by_cases htr :
            truthy ((lookupKey entries "embeddings").getD (SubVal.emb [])) = true
        · rw [if_pos htr] at h
          rcases hrest : evaluate_all_tests th processed rest with _ | scores'
          · rw [hrest] at h
            exact absurd h (by simp)
          · rw [hrest] at h
            simp only [Option.some_inj] at h
            subst h
            simp only [List.map_cons]
            rw [ih scores' hrest]
            have hat : attempted processed t = true := by
              simp [attempted, hl, htr]
            simp [List.filter_cons, hat]
        · rw [if_neg htr] at h
          rw [ih scores h]
          have hat : attempted processed t = false := by
            simp only [attempted, hl]
            exact Bool.eq_false_iff.mpr htr
          simp [List.filter_cons, hat]
      · simp only [evaluate_all_tests, hl] at h
        exact absurd h (by simp)

/-- C10: in a valid evaluation result, the key list of details.test_scores
is exactly the list of test identifiers among test_1..test_10 that are
present in processed_data with a truthy embeddings value; an absent test,
or one with an empty or missing embeddings list, does not appear at all. -/
theorem C10_test_scores_key_set :
    ∀ (th : Thresholds) (results : List (String × SubVal))
      (entries : List (String × SubVal)) (scoresMap : List (String × ℝ)),
      lookupKey results "processed_data" = some (SubVal.dict entries) →
      (evaluate_submission th results).valid = true →
      (evaluate_submission th results).test_scores = some scoresMap →
      scoresMap.map (fun p => p.1) =
        test_ids.filter (fun tid => attempted entries tid) := by
  intro th results entries scoresMap hpd hvalid hts
  rcases hval : validate_submission_format results with _ | err
  · rcases hev : evaluate_all_tests th entries test_ids with _ | scores
    · have hvf : (evaluate_submission th results).valid = false := by
        simp [evaluate_submission, hval, hpd, hev]
      rw [hvf] at hvalid
      exact absurd hvalid (by simp)
    · have hts' : (evaluate_submission th results).test_scores =
          some (scores.map (fun p => (p.1, round3 p.2))) := by
        simp [evaluate_submission, hval, hpd, hev]
      rw [hts'] at hts
      simp only [Option.some_inj] at hts
      subst hts
      rw [List.map_map]
      have hcomp : ((fun p : String × ℝ => p.1) ∘
          (fun p : String × ℝ => (p.1, round3 p.2))) = fun p : String × ℝ => p.1 := rfl
      rw [hcomp]
      exact evaluate_all_tests_keys th entries test_ids scores hev
  · have hvf : (evaluate_submission th results).valid = false := by
      simp [evaluate_submission, hval]
    rw [hvf] at hvalid
    exact absurd hvalid (by simp)

/-- Entries with `test_1` non-empty and `test_2` present but with an empty
embeddings list. -/
noncomputable def c10_entries : List (String × SubVal) :=
  [("test_1", SubVal.dict [("embeddings", SubVal.emb [[1, 0], [0, 1]])]),
   ("test_2", SubVal.dict [("embeddings", SubVal.emb [])])]

/-- Wrapper submission for `c10_entries`. -/
noncomputable def c10_submission : List (String × SubVal) :=
  [("processed_data", SubVal.dict c10_entries), ("metadata", SubVal.dict [])]

/-- C10 (witness): with `test_1` non-empty, `test_2` empty and the rest
absent, details.test_scores has exactly the key test_1. -/
theorem C10_test_scores_key_set_witness :
    ∃ scoresMap,
      (evaluate_submission default_thresholds c10_submission).test_scores =
        some scoresMap ∧ scoresMap.map (fun p => p.1) = ["test_1"] := by
  refine ⟨[("test_1",
    round3 (evaluate_price_extremes default_thresholds [[(1:ℝ), 0], [0, 1]]))], rfl, ?_⟩
  have h := C10_test_scores_key_set default_thresholds c10_submission c10_entries
    [("test_1", round3 (evaluate_price_extremes default_thresholds [[(1:ℝ), 0], [0, 1]]))]
    rfl rfl rfl
  rw [h]
  rfl

end HackathonEvaluator
